import Mathlib

/-!
Shallow embedding of the chat client's core logic: the message stream of the
`Chat` component, the room directory of the `Sidebar` component, and the
`/api/chat` completion endpoint.  Storage-assigned values (document ids and
server timestamps) are passed in as parameters, since the external document
store is their authority.  Fallible external calls (document writes, queries,
HTTP fetches) are modelled by explicit success flags; a `try`/`catch` in the
source becomes a branch on those flags.
-/

namespace ChatApp

/-- JavaScript's `String.prototype.trim`: strip leading and trailing
whitespace.  Implemented structurally over the character list so that it
computes by kernel reduction. -/
def jsTrim (s : String) : String :=
  String.mk (((s.data.dropWhile Char.isWhitespace).reverse.dropWhile Char.isWhitespace).reverse)

/-- Sender role of a message: the human participant or the assistant. -/
inductive Sender
| user
| bot
deriving DecidableEq, Repr

/-- A message document as stored in a room's `massages` subcollection and as
mapped into the local view: id, body text, sender role, creation timestamp. -/
structure MsgDoc where
  id : String
  text : String
  sender : Sender
  createdAt : Nat
deriving DecidableEq, Repr

/-- The local view record of the `Chat` component (same fields the snapshot
mapping copies from each document). -/
structure Message where
  id : String
  text : String
  sender : Sender
  createdAt : Nat
deriving DecidableEq, Repr

/-- The field-by-field mapping from a snapshot document to a local view
record, as in the `onSnapshot` callback of `Chat`. -/
def msgOfDoc (d : MsgDoc) : Message :=
  { id := d.id, text := d.text, sender := d.sender, createdAt := d.createdAt }

/-- One snapshot delivery to the `Chat` component: `setMessages(newMessages)`
replaces the whole local view with the mapped snapshot, ignoring the previous
view `prev`. -/
def deliverMessagesSnapshot (docs : List MsgDoc) (prev : List Message) : List Message :=
  let _ := prev
  docs.map msgOfDoc

/-- The fixed apology string appended when obtaining the AI response fails. -/
def apologyText : String := "申し訳ありませんが、AI応答の取得に失敗しました。"

/-- Mutable UI state of the `Chat` component relevant to `sendMessage`:
the input field and the selected room's message log (the remote
subcollection the component appends to). -/
structure ChatUIState where
  inputMessage : String
  log : List MsgDoc
deriving DecidableEq, Repr

/-- Environment of one `sendMessage` run: success flags for each fallible
external call and the storage-assigned values for the documents it appends.
`fetchOk` is the fetch of `/api/chat` succeeding with an ok status and a
parseable body (`apiResponse` is `data.response`); `botAddOk` and `errAddOk`
are the `addDoc` calls for the assistant reply and the apology message. -/
structure SendEnv where
  userAddOk : Bool
  fetchOk : Bool
  apiResponse : String
  botAddOk : Bool
  errAddOk : Bool
  idU : String
  tsU : Nat
  idB : String
  tsB : Nat
deriving Repr

/-- `fetchAIResponse` of the `Chat` component.  On a successful fetch it
appends the assistant reply; on any failure inside its `try` (failed fetch,
non-ok status, unparseable body, failed reply append) its `catch` appends the
apology message instead.  If that apology append itself fails the error
escapes to the caller; the returned flag records whether an error escaped. -/
def fetchAIResponse (env : SendEnv) (log : List MsgDoc) : List MsgDoc × Bool :=
  if env.fetchOk then
    if env.botAddOk then
      (log ++ [{ id := env.idB, text := env.apiResponse, sender := Sender.bot, createdAt := env.tsB }], false)
    else
      if env.errAddOk then
        (log ++ [{ id := env.idB, text := apologyText, sender := Sender.bot, createdAt := env.tsB }], false)
      else (log, true)
  else
    if env.errAddOk then
      (log ++ [{ id := env.idB, text := apologyText, sender := Sender.bot, createdAt := env.tsB }], false)
    else (log, true)

/-- `sendMessage` of the `Chat` component.  Guard: no-op unless a user, a
user id and a selected room are present and the trimmed input is nonempty.
Past the guard it clears the input field, then inside `try` appends the human
message and awaits `fetchAIResponse`; any error reaching its `catch` is only
logged, so the final state never depends on re-raising. -/
def sendMessage (user userid selectedRoom : Option String) (env : SendEnv)
    (st : ChatUIState) : ChatUIState :=
  if user.isNone || userid.isNone || selectedRoom.isNone || jsTrim st.inputMessage = "" then
    st
  else
    let userMessageText := st.inputMessage
    let st1 : ChatUIState := { st with inputMessage := "" }
    if env.userAddOk then
      let log1 := st1.log ++ [{ id := env.idU, text := userMessageText, sender := Sender.user, createdAt := env.tsU }]
      { st1 with log := (fetchAIResponse env log1).1 }
    else
      st1

/-- A conversation (room) document as stored in the `rooms` collection:
storage-assigned id, display name, creating user, creation timestamp. -/
structure RoomDoc where
  id : String
  name : String
  createdBy : Option String
  createdAt : Nat
deriving DecidableEq, Repr

/-- The inline error text shown when a room with the same name exists. -/
def dupRoomMsg : String := "同じ名前のチャットルームが既に存在します"

/-- The inline error text shown when creating a room fails at the storage layer. -/
def createFailMsg : String := "チャットルームの作成に失敗しました"

/-- State of the `Sidebar` component relevant to room creation: the remote
`rooms` collection, the new-name input, the inline error text, and the
modal-open flag. -/
structure SidebarCreateState where
  rooms : List RoomDoc
  newRoomName : String
  errorMessage : String
  isModalOpen : Bool
deriving DecidableEq, Repr

/-- `handleCreateRoom` of the `Sidebar` component.  Rejects an input whose
trim is empty without side effects.  Then runs the duplicate pre-check query
`where("name", "==", newRoomName.trim())`; if it finds a match it sets the
duplicate error and writes nothing.  Otherwise it writes a room whose `name`
is the untrimmed input, then resets the input, error and modal.  A failure of
the query or of the write reaches the `catch`, which sets the generic
creation error.  `queryOk`/`writeOk` are those calls succeeding; `newId` and
`now` are the storage-assigned id and server timestamp. -/
def handleCreateRoom (userid : Option String) (queryOk writeOk : Bool)
    (newId : String) (now : Nat) (st : SidebarCreateState) : SidebarCreateState :=
  if jsTrim st.newRoomName = "" then st
  else if !queryOk then { st with errorMessage := createFailMsg }
  else if st.rooms.any (fun r => r.name = jsTrim st.newRoomName) then
    { st with errorMessage := dupRoomMsg }
  else if !writeOk then { st with errorMessage := createFailMsg }
  else
    { rooms := st.rooms ++ [{ id := newId, name := st.newRoomName, createdBy := userid, createdAt := now }],
      newRoomName := "", errorMessage := "", isModalOpen := false }

/-- Selection slot of the application context: selected room id and name. -/
structure SessionState where
  selectedRoom : Option String
  selectedRoomName : Option String
deriving DecidableEq, Repr

/-- State acted on by `handleDeleteRoom`: the remote `rooms` collection and
the context's selection. -/
structure DeleteState where
  rooms : List RoomDoc
  session : SessionState
deriving DecidableEq, Repr

/-- `handleDeleteRoom` of the `Sidebar` component.  Returns unchanged unless
the confirmation dialog is accepted.  Then `deleteDoc` removes the room
document; only after it succeeds, and only when the deleted room is the
selected one, are `selectedRoom` and `selectedRoomName` cleared.  If
`deleteDoc` throws, the `catch` shows an alert and touches nothing. -/
def handleDeleteRoom (confirmed deleteOk : Bool) (roomId : String)
    (st : DeleteState) : DeleteState :=
  if !confirmed then st
  else if deleteOk then
    let remaining := st.rooms.filter (fun r => r.id ≠ roomId)
    if st.session.selectedRoom = some roomId then
      { rooms := remaining, session := { selectedRoom := none, selectedRoomName := none } }
    else
      { st with rooms := remaining }
  else st

/-- Subscription-relevant state of the `Chat` component: the local message
view and the room id of the live `onSnapshot` subscription, if any. -/
structure ChatStreamState where
  messages : List Message
  subscription : Option String
deriving DecidableEq, Repr

/-- One run of the `Chat` component's subscription effect after its
dependencies `[selectedRoom, user, userid]` change.  React first runs the
previous effect's cleanup, unsubscribing any live listener, then the body:
with no user or user id it resets the view to empty and opens nothing; with a
selected room it subscribes to that room's ordered log, leaving the view to
the next snapshot delivery; with no selection it resets the view to empty. -/
def chatEffectStep (user userid selectedRoom : Option String)
    (st : ChatStreamState) : ChatStreamState :=
  if user.isNone || userid.isNone then
    { messages := [], subscription := none }
  else
    match selectedRoom with
    | some r => { messages := st.messages, subscription := some r }
    | none => { messages := [], subscription := none }

/-- Local view record of the `Sidebar` component for one room. -/
structure RoomView where
  id : String
  name : String
  createdAt : Nat
deriving DecidableEq, Repr

/-- Subscription-relevant state of the `Sidebar` component: the local room
list and whether the `rooms` collection listener is live. -/
structure SidebarStreamState where
  rooms : List RoomView
  subscription : Bool
deriving DecidableEq, Repr

/-- One run of the `Sidebar` component's subscription effect after its
dependencies `[user, userid]` change.  React first runs the previous effect's
cleanup, unsubscribing any live listener, then the body: with no user or user
id it returns early, leaving the local room list untouched; otherwise it
subscribes to the `rooms` collection ordered by creation time descending. -/
def sidebarEffectStep (user userid : Option String)
    (st : SidebarStreamState) : SidebarStreamState :=
  if user.isNone || userid.isNone then
    { rooms := st.rooms, subscription := false }
  else
    { rooms := st.rooms, subscription := true }

/-- A JSON `message` field as the `/api/chat` route sees it after
`req.json()`: absent, present but not a string, or a string. -/
inductive MsgField
| absent
| nonString
| str (s : String)
deriving DecidableEq, Repr

/-- Outcome of the OpenAI completion call made by the route: whether the call
succeeds, whether `choices` is nonempty (indexing an empty `choices` throws),
and `choices[0].message?.content`, absent when the optional chain yields no
content. -/
structure CompletionOutcome where
  callOk : Bool
  choicesNonempty : Bool
  content : Option String
deriving Repr

/-- HTTP response of the `/api/chat` route: 200 with a `response` body,
400 with an error body, or 500 with an error body. -/
inductive HttpResp
| ok200 (response : String)
| bad400
| err500
deriving DecidableEq, Repr

/-- The fixed fallback text returned when the model yields no content. -/
def noContentFallback : String := "申し訳ありませんが、応答を生成できませんでした。"

/-- JavaScript's `content || fallback`: the fallback replaces an absent
content and also a falsy, i.e. empty-string, content. -/
def contentOrFallback (o : Option String) : String :=
  match o with
  | none => noContentFallback
  | some t => if t = "" then noContentFallback else t

/-- The `POST` handler of `app/api/chat/route.ts`.  A failing `req.json()`
throws into the `catch`, yielding 500.  A missing, non-string or falsy (hence
empty-string) `message` yields 400.  A failing completion call, or an empty
`choices` array (whose indexing throws), reaches the `catch`, yielding 500.
Otherwise the reply text `content || fallback` is returned as 200
`{ response }`. -/
def postChat (jsonOk : Bool) (message : MsgField) (c : CompletionOutcome) : HttpResp :=
  if !jsonOk then HttpResp.err500
  else
    match message with
    | MsgField.absent => HttpResp.bad400
    | MsgField.nonString => HttpResp.bad400
    | MsgField.str s =>
      if s = "" then HttpResp.bad400
      else if !c.callOk then HttpResp.err500
      else if !c.choicesNonempty then HttpResp.err500
      else HttpResp.ok200 (contentOrFallback c.content)

/-- C1, counterexample.  A conversation with the identical display name
`" a"` already exists, yet `handleCreateRoom` performs a write (the
collection grows to two rooms) and yields no duplicate-name condition: the
pre-check compares stored names against the trimmed input `"a"`, which the
stored `" a"` does not equal. -/
theorem C1_untrimmed_duplicate_cex :
    ([{ id := "r1", name := " a", createdBy := some "u", createdAt := 0 }] : List RoomDoc).any
        (fun r => r.name = " a") = true ∧
    (handleCreateRoom (some "u") true true "r2" 1
        { rooms := [{ id := "r1", name := " a", createdBy := some "u", createdAt := 0 }],
          newRoomName := " a", errorMessage := "", isModalOpen := true }).rooms.length = 2 ∧
    (handleCreateRoom (some "u") true true "r2" 1
        { rooms := [{ id := "r1", name := " a", createdBy := some "u", createdAt := 0 }],
          newRoomName := " a", errorMessage := "", isModalOpen := true }).errorMessage ≠ dupRoomMsg := by
  decide

/-- C1, amended.  When the duplicate pre-check query succeeds, the trimmed
input is nonempty, and some existing conversation's display name equals the
trimmed input, `handleCreateRoom` performs zero writes and yields the
duplicate-name condition: the state is unchanged except for the duplicate
error text. -/
theorem C1_create_duplicate_trimmed (st : SidebarCreateState) (userid : Option String)
    (writeOk : Bool) (newId : String) (now : Nat)
    (hne : jsTrim st.newRoomName ≠ "")
    (hdup : st.rooms.any (fun r => r.name = jsTrim st.newRoomName) = true) :
    handleCreateRoom userid true writeOk newId now st = { st with errorMessage := dupRoomMsg } := by
  unfold handleCreateRoom
  simp [hne, hdup]

/-- C1, witness for the amended theorem at a concrete state. -/
theorem C1_create_duplicate_trimmed_witness :
    handleCreateRoom (some "u") true true "r2" 5
        { rooms := [{ id := "r1", name := "a", createdBy := some "u", createdAt := 0 }],
          newRoomName := "a", errorMessage := "", isModalOpen := true } =
      { rooms := [{ id := "r1", name := "a", createdBy := some "u", createdAt := 0 }],
        newRoomName := "a", errorMessage := dupRoomMsg, isModalOpen := true } :=
  C1_create_duplicate_trimmed
    { rooms := [{ id := "r1", name := "a", createdBy := some "u", createdAt := 0 }],
      newRoomName := "a", errorMessage := "", isModalOpen := true }
    (some "u") true "r2" 5 (by decide) (by decide)

/-- C2, counterexample.  With an active identity, a selected conversation and
nonempty text, a failure of step 2 (the append of the human message) leaves
the log without any appended message at all — in particular no apology
message — because the outer `catch` of `sendMessage` only logs. -/
theorem C2_step2_failure_cex :
    (sendMessage (some "u") (some "u") (some "r")
        { userAddOk := false, fetchOk := true, apiResponse := "hi", botAddOk := true,
          errAddOk := true, idU := "m1", tsU := 1, idB := "m2", tsB := 2 }
        { inputMessage := "hello", log := [] }).log = [] := by
  decide

/-- C2, amended.  With an active identity, a selected conversation and
nonempty trimmed text, if the human-message append succeeds and step 3 or 4
fails (the completion-service call or the assistant-reply append) while the
apology append itself succeeds, the conversation log gains the human message
followed by `Message{body=apologyText, sender=assistant}`, and no error is
propagated (the result is an ordinary state).  If step 2 fails the error is
only logged, nothing is appended, and the completion service is not called. -/
theorem C2_apology_on_completion_failure (u uid room : String) (env : SendEnv)
    (st : ChatUIState)
    (hne : jsTrim st.inputMessage ≠ "")
    (hadd : env.userAddOk = true)
    (hfail : env.fetchOk = false ∨ env.botAddOk = false)
    (herr : env.errAddOk = true) :
    sendMessage (some u) (some uid) (some room) env st =
      { inputMessage := "",
        log := st.log ++
          [{ id := env.idU, text := st.inputMessage, sender := Sender.user, createdAt := env.tsU },
           { id := env.idB, text := apologyText, sender := Sender.bot, createdAt := env.tsB }] } := by
  unfold sendMessage fetchAIResponse
  rcases hfail with h | h
  · simp [hne, hadd, herr, h]
  · cases hfe : env.fetchOk <;> simp [hne, hadd, herr, h, hfe]

/-- C2, witness for the amended theorem at a concrete state with a failing
completion-service call. -/
theorem C2_apology_on_completion_failure_witness :
    sendMessage (some "u") (some "u") (some "r")
        { userAddOk := true, fetchOk := false, apiResponse := "x", botAddOk := true,
          errAddOk := true, idU := "m1", tsU := 1, idB := "m2", tsB := 2 }
        { inputMessage := "hello", log := [] } =
      { inputMessage := "",
        log := [{ id := "m1", text := "hello", sender := Sender.user, createdAt := 1 },
                { id := "m2", text := apologyText, sender := Sender.bot, createdAt := 2 }] } := by
  simpa using C2_apology_on_completion_failure "u" "u" "r"
    { userAddOk := true, fetchOk := false, apiResponse := "x", botAddOk := true,
      errAddOk := true, idU := "m1", tsU := 1, idB := "m2", tsB := 2 }
    { inputMessage := "hello", log := [] } (by decide) rfl (Or.inl rfl) rfl

/-- C3, counterexample.  With an active identity and a selected conversation,
`Send("   ")` persists nothing but does not leave the input state empty: the
guard returns before the input is cleared, so the field still holds `"   "`. -/
theorem C3_whitespace_input_cex :
    (sendMessage (some "u") (some "u") (some "r")
        { userAddOk := true, fetchOk := true, apiResponse := "hi", botAddOk := true,
          errAddOk := true, idU := "m1", tsU := 1, idB := "m2", tsB := 2 }
        { inputMessage := "   ", log := [] }).inputMessage = "   " ∧
    ("   " : String) ≠ "" := by
  decide

/-- C3, amended.  When there is no active identity, no selected conversation,
or the text is empty or whitespace-only after trimming, `sendMessage` is a
complete no-op: zero messages are persisted and the input state is left
unchanged — empty only when it already was, as for `Send("")`; for
`Send("   ")` the field keeps the whitespace. -/
theorem C3_guard_noop (user userid selectedRoom : Option String) (env : SendEnv)
    (st : ChatUIState)
    (h : user = none ∨ userid = none ∨ selectedRoom = none ∨ jsTrim st.inputMessage = "") :
    sendMessage user userid selectedRoom env st = st := by
  unfold sendMessage
  rcases h with h | h | h | h <;> simp [h]

/-- C3, witness for the amended theorem: `Send("   ")` with identity and
selection present leaves the state, log included, unchanged. -/
theorem C3_guard_noop_witness :
    sendMessage (some "u") (some "u") (some "r")
        { userAddOk := true, fetchOk := true, apiResponse := "hi", botAddOk := true,
          errAddOk := true, idU := "m1", tsU := 1, idB := "m2", tsB := 2 }
        { inputMessage := "   ",
          log := [{ id := "m0", text := "old", sender := Sender.user, createdAt := 0 }] } =
      { inputMessage := "   ",
        log := [{ id := "m0", text := "old", sender := Sender.user, createdAt := 0 }] } :=
  C3_guard_noop (some "u") (some "u") (some "r")
    { userAddOk := true, fetchOk := true, apiResponse := "hi", botAddOk := true,
      errAddOk := true, idU := "m1", tsU := 1, idB := "m2", tsB := 2 }
    { inputMessage := "   ",
      log := [{ id := "m0", text := "old", sender := Sender.user, createdAt := 0 }] }
    (Or.inr (Or.inr (Or.inr (by decide))))

/-- C4.  Each snapshot delivery fully replaces the local view — the result is
the mapped snapshot regardless of the previous view — so when the snapshot is
the conversation's full log of N persisted messages ordered ascending by
creation timestamp, the local view contains exactly N entries ordered by
non-decreasing creation timestamp. -/
theorem C4_snapshot_replaces_view (docs : List MsgDoc) (prev : List Message)
    (hsorted : List.Chain' (fun a b => a.createdAt ≤ b.createdAt) docs) :
    deliverMessagesSnapshot docs prev = docs.map msgOfDoc ∧
    (deliverMessagesSnapshot docs prev).length = docs.length ∧
    List.Chain' (fun a b => a.createdAt ≤ b.createdAt) (deliverMessagesSnapshot docs prev) := by
  refine ⟨rfl, ?_, ?_⟩
  · simp [deliverMessagesSnapshot]
  · simpa [deliverMessagesSnapshot, List.chain'_map, msgOfDoc] using hsorted

/-- C4, witness at a concrete sorted two-message snapshot replacing a stale
one-entry view. -/
theorem C4_snapshot_replaces_view_witness :
    deliverMessagesSnapshot
        [{ id := "a", text := "x", sender := Sender.user, createdAt := 1 },
         { id := "b", text := "y", sender := Sender.bot, createdAt := 2 }]
        [{ id := "z", text := "old", sender := Sender.user, createdAt := 99 }] =
      [{ id := "a", text := "x", sender := Sender.user, createdAt := 1 },
       { id := "b", text := "y", sender := Sender.bot, createdAt := 2 }].map msgOfDoc ∧
    (deliverMessagesSnapshot
        [{ id := "a", text := "x", sender := Sender.user, createdAt := 1 },
         { id := "b", text := "y", sender := Sender.bot, createdAt := 2 }]
        [{ id := "z", text := "old", sender := Sender.user, createdAt := 99 }]).length = 2 ∧
    List.Chain' (fun a b => a.createdAt ≤ b.createdAt)
      (deliverMessagesSnapshot
        [{ id := "a", text := "x", sender := Sender.user, createdAt := 1 },
         { id := "b", text := "y", sender := Sender.bot, createdAt := 2 }]
        [{ id := "z", text := "old", sender := Sender.user, createdAt := 99 }]) :=
  C4_snapshot_replaces_view
    [{ id := "a", text := "x", sender := Sender.user, createdAt := 1 },
     { id := "b", text := "y", sender := Sender.bot, createdAt := 2 }]
    [{ id := "z", text := "old", sender := Sender.user, createdAt := 99 }]
    (by simp)

/-- C5.  For a confirmed delete whose storage call succeeds: deleting the
currently selected conversation clears both the selected id and the selected
display name; deleting a non-selected conversation leaves the selection
unchanged. -/
theorem C5_delete_clears_selection (st : DeleteState) (roomId : String) :
    (st.session.selectedRoom = some roomId →
      (handleDeleteRoom true true roomId st).session =
        { selectedRoom := none, selectedRoomName := none }) ∧
    (st.session.selectedRoom ≠ some roomId →
      (handleDeleteRoom true true roomId st).session = st.session) := by
  unfold handleDeleteRoom
  constructor
  · intro h
    simp [h]
  · intro h
    simp [h]

/-- C5, witness: deleting the selected room `"r1"` clears the selection, and
deleting the non-selected room `"r2"` leaves the same selection intact. -/
theorem C5_delete_clears_selection_witness :
    (handleDeleteRoom true true "r1"
        { rooms := [{ id := "r1", name := "A", createdBy := some "u", createdAt := 0 }],
          session := { selectedRoom := some "r1", selectedRoomName := some "A" } }).session =
      { selectedRoom := none, selectedRoomName := none } ∧
    (handleDeleteRoom true true "r2"
        { rooms := [{ id := "r2", name := "B", createdBy := some "u", createdAt := 0 }],
          session := { selectedRoom := some "r1", selectedRoomName := some "A" } }).session =
      { selectedRoom := some "r1", selectedRoomName := some "A" } :=
  ⟨(C5_delete_clears_selection
      { rooms := [{ id := "r1", name := "A", createdBy := some "u", createdAt := 0 }],
        session := { selectedRoom := some "r1", selectedRoomName := some "A" } } "r1").1 rfl,
   (C5_delete_clears_selection
      { rooms := [{ id := "r2", name := "B", createdBy := some "u", createdAt := 0 }],
        session := { selectedRoom := some "r1", selectedRoomName := some "A" } } "r2").2
      (by decide)⟩

/-- C6.  Once the guard passes (identity, selection, nonempty trimmed text),
the input field is cleared before the persistence and completion steps, and
it stays cleared on every downstream outcome: for every environment of
success flags, the resulting input state is empty. -/
theorem C6_input_cleared (u uid room : String) (env : SendEnv) (st : ChatUIState)
    (hne : jsTrim st.inputMessage ≠ "") :
    (sendMessage (some u) (some uid) (some room) env st).inputMessage = "" := by
  unfold sendMessage
  cases hadd : env.userAddOk <;> simp [hne, hadd]

/-- C6, witness at a concrete state whose every downstream step fails. -/
theorem C6_input_cleared_witness :
    (sendMessage (some "u") (some "u") (some "r")
        { userAddOk := false, fetchOk := false, apiResponse := "x", botAddOk := false,
          errAddOk := false, idU := "m1", tsU := 1, idB := "m2", tsB := 2 }
        { inputMessage := "hello", log := [] }).inputMessage = "" :=
  C6_input_cleared "u" "u" "r"
    { userAddOk := false, fetchOk := false, apiResponse := "x", botAddOk := false,
      errAddOk := false, idU := "m1", tsU := 1, idB := "m2", tsB := 2 }
    { inputMessage := "hello", log := [] } (by decide)

/-- C7.  The `/api/chat` handler: when the body parses, `message` is a
nonempty string, the completion call succeeds and `choices` is nonempty, it
returns 200 with `{ response }` holding the model's text or the fixed
fallback when the model returns no content; and every response whatsoever is
either that success response, a 400 or a 500 — every failure is a non-2xx
status. -/
theorem C7_postChat_contract (jsonOk : Bool) (message : MsgField) (c : CompletionOutcome) :
    (∀ s, message = MsgField.str s → s ≠ "" → jsonOk = true → c.callOk = true →
      c.choicesNonempty = true →
      postChat jsonOk message c = HttpResp.ok200 (contentOrFallback c.content)) ∧
    (postChat jsonOk message c = HttpResp.ok200 (contentOrFallback c.content) ∨
      postChat jsonOk message c = HttpResp.bad400 ∨
      postChat jsonOk message c = HttpResp.err500) := by
  constructor
  · rintro s rfl hs rfl hc hch
    simp [postChat, hs, hc, hch]
  · cases jsonOk with
    | false => simp [postChat]
    | true =>
      cases message with
      | absent => simp [postChat]
      | nonString => simp [postChat]
      | str s =>
        by_cases hs : s = ""
        · simp [postChat, hs]
        · cases hc : c.callOk with
          | false => simp [postChat, hs, hc]
          | true =>
            cases hch : c.choicesNonempty with
            | false => simp [postChat, hs, hc, hch]
            | true => simp [postChat, hs, hc, hch]

/-- C7, witness: a well-formed request with a successful completion yielding
text `"yo"` gets the 200 response carrying that text. -/
theorem C7_postChat_contract_witness :
    postChat true (MsgField.str "hello")
        { callOk := true, choicesNonempty := true, content := some "yo" } =
      HttpResp.ok200 (contentOrFallback (some "yo")) :=
  (C7_postChat_contract true (MsgField.str "hello")
      { callOk := true, choicesNonempty := true, content := some "yo" }).1
    "hello" rfl (by decide) rfl rfl rfl

/-- C8.  When the identity becomes absent while the message stream is in the
Subscribed state, the next effect run tears the subscription down (the
cleanup unsubscribes and the body opens nothing) and resets the local view to
empty. -/
theorem C8_signout_resets_stream (uid sel : Option String) (st : ChatStreamState)
    (r : String) (hsub : st.subscription = some r) :
    chatEffectStep none uid sel st = { messages := [], subscription := none } := by
  have h := hsub
  simp [chatEffectStep]

/-- C8, witness: signing out while subscribed to room `"r"` with one message
in view yields the empty, unsubscribed stream state. -/
theorem C8_signout_resets_stream_witness :
    chatEffectStep none (some "u") (some "r")
        { messages := [{ id := "a", text := "x", sender := Sender.user, createdAt := 1 }],
          subscription := some "r" } =
      { messages := [], subscription := none } :=
  C8_signout_resets_stream (some "u") (some "r")
    { messages := [{ id := "a", text := "x", sender := Sender.user, createdAt := 1 }],
      subscription := some "r" } "r" rfl

/-- C9.  A confirmed delete whose storage call fails leaves the whole state —
in particular the selected-conversation id and display name — unchanged: the
selection is cleared only after the delete succeeds. -/
theorem C9_delete_failure_keeps_selection (st : DeleteState) (roomId : String) :
    handleDeleteRoom true false roomId st = st := by
  simp [handleDeleteRoom]

/-- C10.  When the identity becomes absent, the room directory's effect run
tears down the subscription but leaves the local room list exactly as last
delivered, while the message stream's effect run resets its view to empty. -/
theorem C10_signout_sidebar_keeps_rooms (st : SidebarStreamState) (uid sel : Option String)
    (cst : ChatStreamState) :
    sidebarEffectStep none uid st = { rooms := st.rooms, subscription := false } ∧
    (chatEffectStep none uid sel cst).messages = [] := by
  constructor <;> simp [sidebarEffectStep, chatEffectStep]

end ChatApp
